import Mathlib

/-!
Shallow embedding of the `Model` aggregate of the Ribasim Python package
(`src/python/ribasim/ribasim/model.py`), together with the collaborating
pieces its claims depend on.  Pure Python functions become Lean functions;
the process-wide `context_file_loading` contextvar becomes an explicitly
threaded `Ctx` value; filesystem effects become an explicit `FS` record;
fallible code returns `Except String`.
-/

namespace Ribasim

/-- A `datetime.datetime`, modelled as an opaque timestamp. -/
abbrev DateTime := Int

/-- A `pathlib.Path`, modelled by its string form (relative paths). -/
abbrev FSPath := String

/-- `pathlib` normalises the empty string to `"."` (`Path("") == Path(".")`). -/
def normPath (p : FSPath) : FSPath := if p = "" then "." else p

/-- Split a character list on a separator character (the groups between
occurrences of `c`, in order). -/
def splitOnChar (c : Char) : List Char → List (List Char)
  | [] => [[]]
  | x :: xs =>
    match splitOnChar c xs with
    | [] => [[]]
    | g :: gs => if x = c then [] :: g :: gs else (x :: g) :: gs

/-- The nonempty `/`-separated components of a path. -/
def pathComponents (p : FSPath) : List String :=
  ((splitOnChar '/' p.data).map String.mk).filter (fun s => s ≠ "")

/-- The final path component (`Path.name`): last nonempty `/`-separated part. -/
def pathName (p : FSPath) : String :=
  (pathComponents p).getLastD ""

/-- Join strings with `.` between them. -/
def joinDot : List String → String
  | [] => ""
  | [s] => s
  | s :: rest => s ++ "." ++ joinDot rest

/-- Join strings with `/` between them. -/
def joinSlash : List String → String
  | [] => ""
  | [s] => s
  | s :: rest => s ++ "/" ++ joinSlash rest

/-- `Path.suffix`: the extension of the final component.  Mirrors `pathlib`:
empty when the name has no dot, is a dotfile (leading dot only) or ends in
a dot. -/
def pathSuffix (p : FSPath) : String :=
  let name := pathName p
  let parts := (splitOnChar '.' name.data).map String.mk
  match parts with
  | [] => ""
  | [_] => ""
  | _ =>
    let ext := parts.getLastD ""
    let stem := joinDot parts.dropLast
    if stem = "" ∨ ext = "" then "" else "." ++ ext

/-- `Path.parent`: all components but the last; `"."` when there is none. -/
def pathParent (p : FSPath) : FSPath :=
  match (pathComponents p).dropLast with
  | [] => "."
  | cs => joinSlash cs

/-- `Path / other`: `pathlib` drops `"."` segments when joining. -/
def pathJoin (a b : FSPath) : FSPath :=
  if a = "." then b else if b = "." then a else a ++ "/" ++ b

/-- One row of a node dataframe: `node_id`, its type tag and name
(geometry is not needed by any claim). -/
structure NodeRow where
  node_id : Int
  node_type : String
  name : String
deriving DecidableEq

/-- One row of the edge dataframe. -/
structure EdgeRow where
  from_node_id : Int
  to_node_id : Int
  edge_type : String
deriving DecidableEq

/-- `ribasim.geometry.node.NodeTable`: a dataframe wrapper; `df = none` is
pandas `None` (absent), `some []` an empty frame. -/
structure NodeTable where
  df : Option (List NodeRow)
deriving DecidableEq

/-- `ribasim.geometry.edge.EdgeTable`: dataframe wrapper for edges. -/
structure EdgeTable where
  df : Option (List EdgeRow)
deriving DecidableEq

/-- Modelled from the spec: `NodeTable.sort` (§4.2, `geometry/node.py` is not
under `src/`) "reorders rows by node ID ascending; stable for ties",
embedded as a stable insertion sort on `node_id`. -/
def NodeTable.sort (t : NodeTable) : NodeTable :=
  { df := t.df.map (List.insertionSort (fun a b => a.node_id ≤ b.node_id)) }

/-- A per-node-type sub-model (`ribasim.config.MultiNodeModel`, not under
`src/`): the claims only touch its `node` table. -/
structure MultiNodeModel where
  node : NodeTable
deriving DecidableEq

/-- The default (empty) sub-model produced by `default_factory`. -/
def MultiNodeModel.default : MultiNodeModel := { node := { df := none } }

/-- The source's populated-ness test on a node dataframe:
`attr.node.df is not None and not attr.node.df.empty`. -/
def dfPopulated (df : Option (List NodeRow)) : Bool :=
  match df with
  | none => false
  | some l => !l.isEmpty

/-- A TOML value as produced by `model_dump` / consumed by `tomli`. -/
inductive Toml where
  | str : String → Toml
  | int : Int → Toml
  | bool : Bool → Toml
  | datetime : DateTime → Toml
  | table : List (String × Toml) → Toml

/-- Python truthiness of a dumped value (`filter(lambda x: x[1], ...)`). -/
def truthy : Toml → Bool
  | .str s => !(s == "")
  | .int n => !(n == 0)
  | .bool b => b
  | .datetime _ => true
  | .table kvs => !kvs.isEmpty

/-- A settings group (`Allocation`/`Logging`/`Solver`/`Results`, defined in
`ribasim.config`, not under `src/`): modelled by its serialized key-value
content, already free of unset/none entries. -/
abbrev Settings := List (String × Toml)

/-- First-match key lookup in an association list (dict access, layer
lookup). -/
def lookupKV {α : Type} (k : String) : List (String × α) → Option α
  | [] => none
  | kv :: rest => if kv.1 = k then some kv.2 else lookupKV k rest

/-- `ribasim.__version__` (`src/python/ribasim/ribasim/__init__.py`). -/
def ribasim_version : String := "0.2.0"

/-- The transient `context_file_loading` contextvar: a dict that may hold a
`directory` and a `database` path. -/
structure Ctx where
  directory : Option FSPath
  database : Option FSPath
deriving DecidableEq

/-- The empty context dict, `context_file_loading.set({})`. -/
def Ctx.empty : Ctx := { directory := none, database := none }

/-- The geometry store (`database.gpkg`): one named layer per table
(modelled from the spec §6; the GeoPackage engine is external). -/
structure Store where
  edgeLayer : List EdgeRow
  nodeLayers : List (String × List NodeRow)

/-- The store of a freshly created, empty database. -/
def Store.empty : Store := { edgeLayer := [], nodeLayers := [] }

/-- The filesystem fragment the `Model` IO touches: created directories,
the written config file, the geometry store, and an environment flag
`ioFault` modelling an I/O error raised while writing the store. -/
structure FS where
  dirs : List FSPath
  tomlFile : Option (FSPath × List (String × Toml))
  store : Option (FSPath × Store)
  ioFault : Bool

/-- Insert a string into a set-like list (Python `set.update` element). -/
def insertField (s : String) (l : List String) : List String :=
  if s ∈ l then l else l ++ [s]

/-- The `Model` root aggregate: every field of the Python class in
declaration order, plus pydantic's `model_fields_set` bookkeeping. -/
structure Model where
  starttime : DateTime
  endtime : DateTime
  input_dir : FSPath
  results_dir : FSPath
  allocation : Settings
  logging : Settings
  solver : Settings
  results : Settings
  basin : MultiNodeModel
  linear_resistance : MultiNodeModel
  manning_resistance : MultiNodeModel
  tabulated_rating_curve : MultiNodeModel
  fractional_flow : MultiNodeModel
  pump : MultiNodeModel
  level_boundary : MultiNodeModel
  flow_boundary : MultiNodeModel
  outlet : MultiNodeModel
  terminal : MultiNodeModel
  discrete_control : MultiNodeModel
  pid_control : MultiNodeModel
  user_demand : MultiNodeModel
  level_demand : MultiNodeModel
  edge : EdgeTable
  model_fields_set : List String

/-- The `MultiNodeModel`-valued fields of `model_fields`, with their field
names, in declaration order (the `isinstance(attr, MultiNodeModel)`
restriction of the source's field iteration). -/
def Model.subModelFields (m : Model) : List (String × MultiNodeModel) :=
  [("basin", m.basin),
   ("linear_resistance", m.linear_resistance),
   ("manning_resistance", m.manning_resistance),
   ("tabulated_rating_curve", m.tabulated_rating_curve),
   ("fractional_flow", m.fractional_flow),
   ("pump", m.pump),
   ("level_boundary", m.level_boundary),
   ("flow_boundary", m.flow_boundary),
   ("outlet", m.outlet),
   ("terminal", m.terminal),
   ("discrete_control", m.discrete_control),
   ("pid_control", m.pid_control),
   ("user_demand", m.user_demand),
   ("level_demand", m.level_demand)]

/-- `Model._nodes` with the originating field names kept: the sub-model
fields whose node dataframe is present and non-empty. -/
def Model.nodesNamed (m : Model) : List (String × MultiNodeModel) :=
  m.subModelFields.filter (fun kv => dfPopulated kv.2.node.df)

/-- `Model._nodes`: "Return all non-empty MultiNodeModel instances." -/
def Model.nodes (m : Model) : List MultiNodeModel :=
  m.nodesNamed.map Prod.snd

/-- Concatenation of all lists in order. -/
def concatAll {α : Type} : List (List α) → List α
  | [] => []
  | l :: ls => l ++ concatAll ls

/-- `pandas.concat(objs, ignore_index=True)`: raises `ValueError` on an
empty list of objects and `TypeError` on a `None` entry; otherwise
concatenates the frames, keeping relative row order. -/
def pd_concat (chunks : List (Option (List NodeRow))) : Except String (List NodeRow) :=
  match chunks with
  | [] => .error "ValueError: No objects to concatenate"
  | _ =>
    if chunks.all Option.isSome then
      .ok (concatAll (chunks.filterMap id))
    else
      .error "TypeError: cannot concatenate object of type NoneType"

/-- `Model.node_table`: "Compute the full NodeTable from all node types." -/
def Model.node_table (m : Model) : Except String NodeTable :=
  match pd_concat (m.nodes.map (fun node => node.node.df)) with
  | .error e => .error e
  | .ok df =>
    let node_table : NodeTable := { df := some df }
    .ok node_table.sort

/-- State-passing form of `node_table`: the source assigns to no field of
`self` (`pd.concat` builds a fresh frame and `sort` is invoked on the
newly constructed `NodeTable` only), so the embedding returns the model
it was given. -/
def Model.node_tableSt (m : Model) : Except String (NodeTable × Model) :=
  match m.node_table with
  | .error e => .error e
  | .ok t => .ok (t, m)

/-- `Model.model_post_init`: "Always write dir fields" —
`self.model_fields_set.update({"input_dir", "results_dir"})`. -/
def Model.model_post_init (m : Model) : Model :=
  { m with model_fields_set :=
      insertField "results_dir" (insertField "input_dir" m.model_fields_set) }

/-- `Model.serialize_path` (the `field_serializer` for `input_dir` and
`results_dir`): `str(path)` of the pydantic-normalised path. -/
def serialize_path (p : FSPath) : String := normPath p

/-- One top-level entry of `model_dump(exclude_unset=True, ...)`: present
exactly when the field was explicitly set. -/
def setEntry (fset : List String) (k : String) (v : Toml) : List (String × Toml) :=
  if k ∈ fset then [(k, v)] else []

/-- Modelled from the spec: a sub-model's config section holds no tabular
data (tables live in the geometry store, §4.3/§6), so its dump here is an
empty section — which `_write_toml` then filters out ("Filter empty dicts
(default Nodes)"). -/
def MultiNodeModel.dump (_ : MultiNodeModel) : Toml := .table []

/-- Modelled from the spec: the edge table is persisted to the geometry
store, not the config file, so its dump is an empty section. -/
def EdgeTable.dump (_ : EdgeTable) : Toml := .table []

/-- `self.model_dump(exclude_unset=True, exclude_none=True, by_alias=True)`:
pydantic serializes the declared fields in order, keeping exactly the
explicitly-set ones (no top-level field of `Model` is none-valued). -/
def Model.model_dump (m : Model) : List (String × Toml) :=
  setEntry m.model_fields_set "starttime" (.datetime m.starttime) ++
  setEntry m.model_fields_set "endtime" (.datetime m.endtime) ++
  setEntry m.model_fields_set "input_dir" (.str (serialize_path m.input_dir)) ++
  setEntry m.model_fields_set "results_dir" (.str (serialize_path m.results_dir)) ++
  setEntry m.model_fields_set "allocation" (.table m.allocation) ++
  setEntry m.model_fields_set "logging" (.table m.logging) ++
  setEntry m.model_fields_set "solver" (.table m.solver) ++
  setEntry m.model_fields_set "results" (.table m.results) ++
  setEntry m.model_fields_set "basin" m.basin.dump ++
  setEntry m.model_fields_set "linear_resistance" m.linear_resistance.dump ++
  setEntry m.model_fields_set "manning_resistance" m.manning_resistance.dump ++
  setEntry m.model_fields_set "tabulated_rating_curve" m.tabulated_rating_curve.dump ++
  setEntry m.model_fields_set "fractional_flow" m.fractional_flow.dump ++
  setEntry m.model_fields_set "pump" m.pump.dump ++
  setEntry m.model_fields_set "level_boundary" m.level_boundary.dump ++
  setEntry m.model_fields_set "flow_boundary" m.flow_boundary.dump ++
  setEntry m.model_fields_set "outlet" m.outlet.dump ++
  setEntry m.model_fields_set "terminal" m.terminal.dump ++
  setEntry m.model_fields_set "discrete_control" m.discrete_control.dump ++
  setEntry m.model_fields_set "pid_control" m.pid_control.dump ++
  setEntry m.model_fields_set "user_demand" m.user_demand.dump ++
  setEntry m.model_fields_set "level_demand" m.level_demand.dump ++
  setEntry m.model_fields_set "edge" m.edge.dump

/-- The key-value content `Model._write_toml` serializes: the sparse dump,
with falsy values (empty dicts of default Nodes) filtered out, and
`ribasim_version` appended. -/
def Model.write_toml_content (m : Model) : List (String × Toml) :=
  let content := m.model_dump
  let content := content.filter (fun x => truthy x.2)
  content ++ [("ribasim_version", .str ribasim_version)]

/-- The store `Model._save` produces: the edge layer plus one named layer
per populated sub-model (layer naming modelled from the spec §6; the
per-table `_save` bodies live in `geometry/` and `config.py`, not under
`src/`). -/
def Store.ofModel (m : Model) : Store :=
  { edgeLayer := m.edge.df.getD []
  , nodeLayers := m.nodesNamed.map (fun kv => (kv.1, kv.2.node.df.getD [])) }

/-- `Model._save`: compute `db_path`, `mkdir` its parent, `unlink` any old
store, record the store path in the context, then write the edge table and
every populated sub-model.  `fs.ioFault` models an I/O error raised by the
store-writing collaborator mid-save. -/
def Model._save (m : Model) (directory input_dir : FSPath) (fs : FS) (ctx : Ctx) :
    Except String Unit × FS × Ctx :=
  let db_path := pathJoin (pathJoin directory input_dir) "database.gpkg"
  let fs1 : FS := { fs with dirs := insertField (pathParent db_path) fs.dirs
                          , store := none }
  let ctx1 : Ctx := { ctx with database := some db_path }
  if fs1.ioFault then
    (.error "OSError: could not write to the database", fs1, ctx1)
  else
    (.ok (), { fs1 with store := some (db_path, Store.ofModel m) }, ctx1)

/-- `Model.write`: reject a non-`.toml` suffix, reset the context, create
the parent directory, `_save` the geometry store, then `_write_toml`, and
reset the context again on the successful path. -/
def Model.write (m : Model) (filepath : FSPath) (fs : FS) (ctx : Ctx) :
    Except String FSPath × FS × Ctx :=
  if pathSuffix filepath ≠ ".toml" then
    (.error "ValueError: Filepath is not a .toml file.", fs, ctx)
  else
    let ctx1 := Ctx.empty
    let directory := pathParent filepath
    let fs1 : FS := { fs with dirs := insertField directory fs.dirs }
    match m._save directory m.input_dir fs1 ctx1 with
    | (.error e, fs2, ctx2) => (.error e, fs2, ctx2)
    | (.ok _, fs2, _) =>
      let fs3 : FS := { fs2 with tomlFile := some (filepath, m.write_toml_content) }
      (.ok filepath, fs3, Ctx.empty)

/-- `Model.validate_model_node_field_ids`: unconditionally
`raise NotImplementedError()`. -/
def Model.validate_model_node_field_ids (_ : Model) : Except String Unit :=
  .error "NotImplementedError"

/-- `Model.validate_model_node_ids`: unconditionally
`raise NotImplementedError()`. -/
def Model.validate_model_node_ids (_ : Model) : Except String Unit :=
  .error "NotImplementedError"

/-- `Model.validate_model`: runs the two sub-checks in order. -/
def Model.validate_model (m : Model) : Except String Unit :=
  match m.validate_model_node_field_ids with
  | .error e => .error e
  | .ok _ => m.validate_model_node_ids

/-- `Model.plot_control_listen`: unconditionally
`raise NotImplementedError()`. -/
def Model.plot_control_listen (_ : Model) (_ax : Unit) : Except String Unit :=
  .error "NotImplementedError"

/-- Extract a string TOML value, if the entry holds one. -/
def getStr? : Option Toml → Option String
  | some (.str s) => some s
  | _ => none

/-- Modelled from the spec: pydantic validation of a required datetime
field — the config entry must be present and a datetime, else
construction fails (`input_base.py` is not under `src/`). -/
def reqDatetime (config : List (String × Toml)) (k : String) : Except String DateTime :=
  match lookupKV k config with
  | some (.datetime t) => .ok t
  | some _ => .error "ValidationError: invalid datetime"
  | none => .error "ValidationError: field required"

/-- Modelled from the spec: pydantic validation of a `Path` field with a
default — an absent entry takes the default, a string is coerced to a
(normalised) path, anything else fails. -/
def optPathField (config : List (String × Toml)) (k : String) (dflt : String) :
    Except String FSPath :=
  match lookupKV k config with
  | none => .ok (normPath dflt)
  | some (.str s) => .ok (normPath s)
  | some _ => .error "ValidationError: invalid path"

/-- Modelled from the spec: validation of a settings-group section — an
absent entry yields the default (empty) group. -/
def optTableField (config : List (String × Toml)) (k : String) :
    Except String Settings :=
  match lookupKV k config with
  | none => .ok []
  | some (.table kvs) => .ok kvs
  | some _ => .error "ValidationError: invalid section"

/-- Modelled from the spec: sub-model hydration from the geometry store —
each sub-model reads its named layer; a missing layer yields an empty
(not absent) node table ("Model.read creates empty node tables (#1278)"). -/
def Store.hydrate (store : Store) (k : String) : MultiNodeModel :=
  { node := { df := some ((lookupKV k store.nodeLayers).getD []) } }

/-- Modelled from the spec: `FileModel` construction of a `Model` from the
parsed config and the geometry store found through the load context
(`input_base.py` and the sub-model readers are not under `src/`):
each top-level key present in the config sets the corresponding field,
absent fields take their declared defaults, and every sub-model hydrates
its node table from its named layer. -/
def Model.fromConfig (config : List (String × Toml)) (store : Store) :
    Except String Model :=
  match reqDatetime config "starttime" with
  | .error e => .error e
  | .ok starttime =>
  match reqDatetime config "endtime" with
  | .error e => .error e
  | .ok endtime =>
  match optPathField config "input_dir" "." with
  | .error e => .error e
  | .ok input_dir =>
  match optPathField config "results_dir" "results" with
  | .error e => .error e
  | .ok results_dir =>
  match optTableField config "allocation" with
  | .error e => .error e
  | .ok allocation =>
  match optTableField config "logging" with
  | .error e => .error e
  | .ok logging =>
  match optTableField config "solver" with
  | .error e => .error e
  | .ok solver =>
  match optTableField config "results" with
  | .error e => .error e
  | .ok results =>
  .ok { starttime := starttime
      , endtime := endtime
      , input_dir := input_dir
      , results_dir := results_dir
      , allocation := allocation
      , logging := logging
      , solver := solver
      , results := results
      , basin := store.hydrate "basin"
      , linear_resistance := store.hydrate "linear_resistance"
      , manning_resistance := store.hydrate "manning_resistance"
      , tabulated_rating_curve := store.hydrate "tabulated_rating_curve"
      , fractional_flow := store.hydrate "fractional_flow"
      , pump := store.hydrate "pump"
      , level_boundary := store.hydrate "level_boundary"
      , flow_boundary := store.hydrate "flow_boundary"
      , outlet := store.hydrate "outlet"
      , terminal := store.hydrate "terminal"
      , discrete_control := store.hydrate "discrete_control"
      , pid_control := store.hydrate "pid_control"
      , user_demand := store.hydrate "user_demand"
      , level_demand := store.hydrate "level_demand"
      , edge := { df := some store.edgeLayer }
      , model_fields_set := config.map Prod.fst }

/-- `Model.read` / `Model._load` / construction / `reset_contextvar`:
`_load` resets the context, opens the file (a missing file propagates
`FileNotFoundError`), parses the config, records `directory` and
`database` in the context, construction hydrates the sub-models from the
store at the recorded database path (a missing store reads as empty
layers), `model_post_init` marks the dir fields set, and on success
`reset_contextvar` clears the context.  On a construction failure the
error propagates with the context still set. -/
def Model.readFS (filepath : FSPath) (fs : FS) (_ctx : Ctx) :
    Except String Model × Ctx :=
  let ctx1 := Ctx.empty
  match fs.tomlFile with
  | none => (.error "FileNotFoundError", ctx1)
  | some (p, config) =>
    if p = filepath then
      let input_dir_str := (getStr? (lookupKV "input_dir" config)).getD "."
      let directory := pathJoin (pathParent filepath) input_dir_str
      let database := pathJoin directory "database.gpkg"
      let ctx2 : Ctx := { directory := some directory, database := some database }
      let store :=
        match fs.store with
        | some (dbp, st) => if dbp = database then st else Store.empty
        | none => Store.empty
      match Model.fromConfig config store with
      | .error e => (.error e, ctx2)
      | .ok mdl => (.ok mdl.model_post_init, Ctx.empty)
    else (.error "FileNotFoundError", ctx1)

/-- The model equivalence produced by a write/read round trip: the same
scalar fields and settings groups, the same node rows for every node type
(an absent table counted as empty, since `Model.read` creates empty node
tables, #1278), the same unified node table, and the same edge rows. -/
def Model.roundTripEq (a b : Model) : Prop :=
  a.starttime = b.starttime ∧ a.endtime = b.endtime ∧
  a.input_dir = b.input_dir ∧ a.results_dir = b.results_dir ∧
  a.allocation = b.allocation ∧ a.logging = b.logging ∧
  a.solver = b.solver ∧ a.results = b.results ∧
  a.subModelFields.map (fun kv => (kv.1, kv.2.node.df.getD [])) =
    b.subModelFields.map (fun kv => (kv.1, kv.2.node.df.getD [])) ∧
  a.node_table = b.node_table ∧
  a.edge.df.getD [] = b.edge.df.getD []

/-- A single-row sub-model with the given node id and type tag. -/
def oneNode (i : Int) (ty : String) : MultiNodeModel :=
  { node := { df := some [{ node_id := i, node_type := ty, name := "" }] } }

/-- A model with default (absent) node tables everywhere: zero populated
sub-models. -/
def mEmpty : Model :=
  { starttime := 0
  , endtime := 1
  , input_dir := "."
  , results_dir := "results"
  , allocation := []
  , logging := []
  , solver := []
  , results := []
  , basin := MultiNodeModel.default
  , linear_resistance := MultiNodeModel.default
  , manning_resistance := MultiNodeModel.default
  , tabulated_rating_curve := MultiNodeModel.default
  , fractional_flow := MultiNodeModel.default
  , pump := MultiNodeModel.default
  , level_boundary := MultiNodeModel.default
  , flow_boundary := MultiNodeModel.default
  , outlet := MultiNodeModel.default
  , terminal := MultiNodeModel.default
  , discrete_control := MultiNodeModel.default
  , pid_control := MultiNodeModel.default
  , user_demand := MultiNodeModel.default
  , level_demand := MultiNodeModel.default
  , edge := { df := none }
  , model_fields_set := ["starttime", "endtime", "input_dir", "results_dir"]
  }

/-- A model in which every sub-model is populated with a one-row table. -/
def mEx : Model :=
  { starttime := 100
  , endtime := 200
  , input_dir := "."
  , results_dir := "results"
  , allocation := []
  , logging := []
  , solver := []
  , results := []
  , basin := oneNode 1 "Basin"
  , linear_resistance := oneNode 2 "LinearResistance"
  , manning_resistance := oneNode 3 "ManningResistance"
  , tabulated_rating_curve := oneNode 4 "TabulatedRatingCurve"
  , fractional_flow := oneNode 5 "FractionalFlow"
  , pump := oneNode 6 "Pump"
  , level_boundary := oneNode 7 "LevelBoundary"
  , flow_boundary := oneNode 8 "FlowBoundary"
  , outlet := oneNode 9 "Outlet"
  , terminal := oneNode 10 "Terminal"
  , discrete_control := oneNode 11 "DiscreteControl"
  , pid_control := oneNode 12 "PidControl"
  , user_demand := oneNode 13 "UserDemand"
  , level_demand := oneNode 14 "LevelDemand"
  , edge := { df := some [{ from_node_id := 1, to_node_id := 6, edge_type := "flow" }] }
  , model_fields_set := ["starttime", "endtime", "input_dir", "results_dir"]
  }

/-- The spec §8 scenario model: only Basin (node 1) and Pump (node 2) are
populated, all other sub-models are left at their defaults, and one edge
connects them. -/
def mScenario : Model :=
  { mEmpty with
    basin := oneNode 1 "Basin"
    pump := oneNode 2 "Pump"
    edge := { df := some [{ from_node_id := 1, to_node_id := 2, edge_type := "flow" }] } }

/-- A pristine filesystem with no fault. -/
def fs0 : FS := { dirs := [], tomlFile := none, store := none, ioFault := false }

/-- A filesystem whose geometry-store write raises an I/O error. -/
def fsFault : FS := { dirs := [], tomlFile := none, store := none, ioFault := true }

/-- The rows of `mEx.node_table` in sorted order. -/
def rowsEx : List NodeRow :=
  [{ node_id := 1, node_type := "Basin", name := "" },
   { node_id := 2, node_type := "LinearResistance", name := "" },
   { node_id := 3, node_type := "ManningResistance", name := "" },
   { node_id := 4, node_type := "TabulatedRatingCurve", name := "" },
   { node_id := 5, node_type := "FractionalFlow", name := "" },
   { node_id := 6, node_type := "Pump", name := "" },
   { node_id := 7, node_type := "LevelBoundary", name := "" },
   { node_id := 8, node_type := "FlowBoundary", name := "" },
   { node_id := 9, node_type := "Outlet", name := "" },
   { node_id := 10, node_type := "Terminal", name := "" },
   { node_id := 11, node_type := "DiscreteControl", name := "" },
   { node_id := 12, node_type := "PidControl", name := "" },
   { node_id := 13, node_type := "UserDemand", name := "" },
   { node_id := 14, node_type := "LevelDemand", name := "" }]

/-- The node table `mEx.node_table` computes. -/
def tEx : NodeTable := { df := some rowsEx }

instance : IsTotal NodeRow (fun a b => a.node_id ≤ b.node_id) :=
  ⟨fun a b => Int.le_total a.node_id b.node_id⟩

instance : IsTrans NodeRow (fun a b => a.node_id ≤ b.node_id) :=
  ⟨fun _ _ _ hab hbc => le_trans hab hbc⟩

/-! ## Helper lemmas -/

theorem mem_concatAll {α : Type} (a : α) (ls : List (List α)) :
    a ∈ concatAll ls ↔ ∃ l ∈ ls, a ∈ l := by
  induction ls with
  | nil => simp [concatAll]
  | cons l ls ih => simp [concatAll, List.mem_append, ih]

theorem dfPopulated_iff (df : Option (List NodeRow)) :
    dfPopulated df = true ↔ ∃ l, df = some l ∧ l ≠ [] := by
  cases df with
  | none => simp [dfPopulated]
  | some l => simp [dfPopulated, List.isEmpty_iff]

theorem mem_insertField_self (s : String) (l : List String) :
    s ∈ insertField s l := by
  unfold insertField
  by_cases h : s ∈ l
  · rw [if_pos h]; exact h
  · rw [if_neg h]
    exact List.mem_append.mpr (Or.inr (List.mem_singleton.mpr rfl))

theorem mem_insertField_mono (s t : String) (l : List String)
    (h : t ∈ l) : t ∈ insertField s l := by
  unfold insertField
  by_cases hc : s ∈ l
  · rw [if_pos hc]; exact h
  · rw [if_neg hc]
    exact List.mem_append.mpr (Or.inl h)

theorem mem_dirs_of_post (m : Model) (hpost : m.model_post_init = m) :
    "input_dir" ∈ m.model_fields_set ∧ "results_dir" ∈ m.model_fields_set := by
  have heq : insertField "results_dir" (insertField "input_dir" m.model_fields_set) =
      m.model_fields_set := congrArg Model.model_fields_set hpost
  constructor
  · rw [← heq]
    exact mem_insertField_mono _ _ _ (mem_insertField_self _ _)
  · rw [← heq]
    exact mem_insertField_self _ _

theorem lookupKV_append {α : Type} (k : String) (l1 l2 : List (String × α)) :
    lookupKV k (l1 ++ l2) = (lookupKV k l1).orElse (fun _ => lookupKV k l2) := by
  induction l1 with
  | nil => simp [lookupKV]
  | cons kv rest ih =>
    by_cases h : kv.1 = k <;> simp [lookupKV, h, ih]

theorem lookupKV_filter_setEntry (p : String × Toml → Bool) (fset : List String)
    (k k' : String) (v : Toml) :
    lookupKV k ((setEntry fset k' v).filter p) =
      if k' = k then
        (if k' ∈ fset ∧ p (k', v) = true then some v else none)
      else none := by
  unfold setEntry
  by_cases h3 : k' = k
  · subst h3
    rw [if_pos rfl]
    by_cases h1 : k' ∈ fset
    · rw [if_pos h1]
      by_cases h2 : p (k', v) = true
      · rw [if_pos ⟨h1, h2⟩]
        simp [List.filter_cons, h2, lookupKV]
      · rw [if_neg (fun hc => h2 hc.2)]
        simp [List.filter_cons, h2, lookupKV]
    · rw [if_neg h1, if_neg (fun hc => h1 hc.1)]
      simp [lookupKV]
  · rw [if_neg h3]
    by_cases h1 : k' ∈ fset
    · rw [if_pos h1]
      by_cases h2 : p (k', v) = true
      · simp [List.filter_cons, h2, lookupKV, h3]
      · simp [List.filter_cons, h2, lookupKV]
    · rw [if_neg h1]
      simp [lookupKV]

theorem normPath_ne_empty (p : FSPath) : normPath p ≠ "" := by
  unfold normPath
  by_cases h : p = "" <;> simp [h]

theorem normPath_idem (p : FSPath) : normPath (normPath p) = normPath p := by
  unfold normPath
  by_cases h : p = "" <;> simp [h]

theorem truthy_serialize_path (p : FSPath) : truthy (.str (serialize_path p)) = true := by
  unfold truthy serialize_path
  simp [normPath_ne_empty p]

set_option maxHeartbeats 2000000 in
theorem lookup_content_starttime (m : Model)
    (h : "starttime" ∈ m.model_fields_set) :
    lookupKV "starttime" m.write_toml_content = some (.datetime m.starttime) := by
  unfold Model.write_toml_content Model.model_dump
  simp [List.filter_append, lookupKV_append, lookupKV_filter_setEntry, h, truthy]

set_option maxHeartbeats 2000000 in
theorem lookup_content_endtime (m : Model)
    (h : "endtime" ∈ m.model_fields_set) :
    lookupKV "endtime" m.write_toml_content = some (.datetime m.endtime) := by
  unfold Model.write_toml_content Model.model_dump
  simp [List.filter_append, lookupKV_append, lookupKV_filter_setEntry, h, truthy]

set_option maxHeartbeats 2000000 in
theorem lookup_content_input_dir (m : Model)
    (h : "input_dir" ∈ m.model_fields_set) :
    lookupKV "input_dir" m.write_toml_content =
      some (.str (serialize_path m.input_dir)) := by
  unfold Model.write_toml_content Model.model_dump
  simp [List.filter_append, lookupKV_append, lookupKV_filter_setEntry, h,
    truthy_serialize_path]

set_option maxHeartbeats 2000000 in
theorem lookup_content_results_dir (m : Model)
    (h : "results_dir" ∈ m.model_fields_set) :
    lookupKV "results_dir" m.write_toml_content =
      some (.str (serialize_path m.results_dir)) := by
  unfold Model.write_toml_content Model.model_dump
  simp [List.filter_append, lookupKV_append, lookupKV_filter_setEntry, h,
    truthy_serialize_path]

theorem lookupKV_last (k : String) (v : Toml) (l : List (String × Toml))
    (h : ∀ kv ∈ l, kv.1 ≠ k) : lookupKV k (l ++ [(k, v)]) = some v := by
  induction l with
  | nil => simp [lookupKV]
  | cons kv rest ih =>
    rw [List.cons_append]
    have hne : kv.1 ≠ k := h kv (List.mem_cons_self _ _)
    simp only [lookupKV, if_neg hne]
    exact ih (fun x hx => h x (List.mem_cons_of_mem _ hx))

theorem mem_model_dump_keys (m : Model) (kv : String × Toml) (h : kv ∈ m.model_dump) :
    kv.1 ∈ ["starttime", "endtime", "input_dir", "results_dir", "allocation",
            "logging", "solver", "results", "basin", "linear_resistance",
            "manning_resistance", "tabulated_rating_curve", "fractional_flow",
            "pump", "level_boundary", "flow_boundary", "outlet", "terminal",
            "discrete_control", "pid_control", "user_demand", "level_demand",
            "edge"] := by
  have hs : ∀ (k : String) (v : Toml), kv ∈ setEntry m.model_fields_set k v →
      kv.1 = k := by
    intro k v hk
    unfold setEntry at hk
    by_cases hc : k ∈ m.model_fields_set
    · rw [if_pos hc] at hk
      simp only [List.mem_singleton] at hk
      rw [hk]
    · rw [if_neg hc] at hk
      exact absurd hk (by simp)
  unfold Model.model_dump at h
  simp only [List.mem_append, or_assoc] at h
  rcases h with
    h|h|h|h|h|h|h|h|h|h|h|h|h|h|h|h|h|h|h|h|h|h|h <;> rw [hs _ _ h] <;> decide

theorem lookup_content_version (m : Model) :
    lookupKV "ribasim_version" m.write_toml_content = some (.str ribasim_version) := by
  unfold Model.write_toml_content
  apply lookupKV_last
  intro kv hkv
  have hmem := mem_model_dump_keys m kv (List.mem_filter.mp hkv).1
  simp only [List.mem_cons, List.not_mem_nil, or_false] at hmem
  rcases hmem with h|h|h|h|h|h|h|h|h|h|h|h|h|h|h|h|h|h|h|h|h|h|h <;>
    rw [h] <;> decide

set_option maxHeartbeats 2000000 in
theorem lookup_content_allocation (m : Model) :
    lookupKV "allocation" m.write_toml_content =
      (if "allocation" ∈ m.model_fields_set ∧ m.allocation.isEmpty = false
       then some (.table m.allocation) else none) := by
  unfold Model.write_toml_content Model.model_dump
  simp [List.filter_append, lookupKV_append, lookupKV_filter_setEntry, truthy]
  rcases Bool.eq_false_or_eq_true m.allocation.isEmpty with he | he <;>
    by_cases hm : "allocation" ∈ m.model_fields_set <;>
    simp [hm, he, lookupKV]

set_option maxHeartbeats 2000000 in
theorem lookup_content_logging (m : Model) :
    lookupKV "logging" m.write_toml_content =
      (if "logging" ∈ m.model_fields_set ∧ m.logging.isEmpty = false
       then some (.table m.logging) else none) := by
  unfold Model.write_toml_content Model.model_dump
  simp [List.filter_append, lookupKV_append, lookupKV_filter_setEntry, truthy]
  rcases Bool.eq_false_or_eq_true m.logging.isEmpty with he | he <;>
    by_cases hm : "logging" ∈ m.model_fields_set <;>
    simp [hm, he, lookupKV]

set_option maxHeartbeats 2000000 in
theorem lookup_content_solver (m : Model) :
    lookupKV "solver" m.write_toml_content =
      (if "solver" ∈ m.model_fields_set ∧ m.solver.isEmpty = false
       then some (.table m.solver) else none) := by
  unfold Model.write_toml_content Model.model_dump
  simp [List.filter_append, lookupKV_append, lookupKV_filter_setEntry, truthy]
  rcases Bool.eq_false_or_eq_true m.solver.isEmpty with he | he <;>
    by_cases hm : "solver" ∈ m.model_fields_set <;>
    simp [hm, he, lookupKV]

set_option maxHeartbeats 2000000 in
theorem lookup_content_results (m : Model) :
    lookupKV "results" m.write_toml_content =
      (if "results" ∈ m.model_fields_set ∧ m.results.isEmpty = false
       then some (.table m.results) else none) := by
  unfold Model.write_toml_content Model.model_dump
  simp [List.filter_append, lookupKV_append, lookupKV_filter_setEntry, truthy]
  rcases Bool.eq_false_or_eq_true m.results.isEmpty with he | he <;>
    by_cases hm : "results" ∈ m.model_fields_set <;>
    simp [hm, he, lookupKV]

theorem mem_model_dump_contains (m : Model) (kv : String × Toml)
    (h : kv ∈ m.model_dump) : kv.1 ∈ m.model_fields_set := by
  have hs : ∀ (k : String) (v : Toml), kv ∈ setEntry m.model_fields_set k v →
      kv.1 ∈ m.model_fields_set := by
    intro k v hk
    unfold setEntry at hk
    by_cases hc : k ∈ m.model_fields_set
    · rw [if_pos hc] at hk
      simp only [List.mem_singleton] at hk
      rw [hk]
      exact hc
    · rw [if_neg hc] at hk
      exact absurd hk (by simp)
  unfold Model.model_dump at h
  simp only [List.mem_append, or_assoc] at h
  rcases h with
    h|h|h|h|h|h|h|h|h|h|h|h|h|h|h|h|h|h|h|h|h|h|h <;> exact hs _ _ h

theorem write_success_fs (m : Model) (p : FSPath) (fs : FS) (ctx : Ctx)
    (hsuf : pathSuffix p = ".toml") (hfault : fs.ioFault = false) :
    m.write p fs ctx =
      (.ok p,
       { dirs := insertField
           (pathParent (pathJoin (pathJoin (pathParent p) m.input_dir) "database.gpkg"))
           (insertField (pathParent p) fs.dirs)
       , tomlFile := some (p, m.write_toml_content)
       , store := some
           (pathJoin (pathJoin (pathParent p) m.input_dir) "database.gpkg",
            Store.ofModel m)
       , ioFault := false },
       Ctx.empty) := by
  unfold Model.write Model._save
  simp [hsuf, hfault]

theorem write_fault_result (m : Model) (p : FSPath) (fs : FS) (ctx : Ctx)
    (hsuf : pathSuffix p = ".toml") (hfault : fs.ioFault = true) :
    m.write p fs ctx =
      (.error "OSError: could not write to the database",
       { dirs := insertField
           (pathParent (pathJoin (pathJoin (pathParent p) m.input_dir) "database.gpkg"))
           (insertField (pathParent p) fs.dirs)
       , tomlFile := fs.tomlFile
       , store := none
       , ioFault := true },
       { directory := none,
         database := some (pathJoin (pathJoin (pathParent p) m.input_dir) "database.gpkg") }) := by
  unfold Model.write Model._save
  simp [hsuf, hfault, Ctx.empty]

/-! ## C2: node_table on a model with zero populated sub-models -/

/-- C2 counterexample: on `mEmpty`, whose sub-models are all unpopulated,
`node_table()` does not return an empty table — the `pd.concat` of an
empty list of frames raises `ValueError`, so the call errors. -/
theorem node_table_empty_raises_cex :
    mEmpty.node_table = .error "ValueError: No objects to concatenate" := by
  rfl

/-- C2 (amended): for every `Model` with zero populated sub-models,
`node_table()` raises the `ValueError` of `pd.concat` on an empty list of
objects, rather than returning an empty table. -/
theorem node_table_no_populated_errors (m : Model) (h : m.nodes = []) :
    m.node_table = .error "ValueError: No objects to concatenate" := by
  unfold Model.node_table
  rw [h]
  rfl

/-- C2 witness: `mEmpty` has no populated sub-models and errors. -/
theorem node_table_no_populated_errors_witness :
    mEmpty.nodes = [] ∧
      mEmpty.node_table = .error "ValueError: No objects to concatenate" :=
  ⟨rfl, node_table_no_populated_errors mEmpty rfl⟩

/-! ## C3: node_table output is sorted by node id -/

/-- C3: whenever `node_table()` succeeds, adjacent rows of the returned
table have ascending node ids. -/
theorem node_table_sorted_adjacent (m : Model) (t : NodeTable) (l : List NodeRow)
    (h1 : m.node_table = .ok t) (h2 : t.df = some l) :
    l.Chain' (fun a b => a.node_id ≤ b.node_id) := by
  unfold Model.node_table at h1
  cases hc : pd_concat (m.nodes.map (fun node => node.node.df)) with
  | error e => rw [hc] at h1; exact absurd h1 (by simp)
  | ok df =>
    rw [hc] at h1
    simp only [Except.ok.injEq] at h1
    rw [← h1] at h2
    simp only [NodeTable.sort, Option.map_some'] at h2
    obtain rfl : l = List.insertionSort (fun a b => a.node_id ≤ b.node_id) df := by
      exact (Option.some.injEq _ _ ▸ h2).symm
    exact (List.sorted_insertionSort _ df).chain'

/-- C3 witness: the computed table of `mEx` is sorted at every adjacent
pair. -/
theorem node_table_sorted_adjacent_witness :
    mEx.node_table = .ok tEx ∧ tEx.df = some rowsEx ∧
      rowsEx.Chain' (fun a b => a.node_id ≤ b.node_id) :=
  ⟨rfl, rfl, node_table_sorted_adjacent mEx tEx rowsEx rfl rfl⟩

/-! ## C4: node_table draws exactly from populated sub-models -/

/-- C4: `_nodes()` yields exactly the sub-models whose node dataframe is
present and non-empty, and every row of a successful `node_table()`
originates from one of them. -/
theorem nodes_iff_populated_and_provenance (m : Model) :
    (∀ sub : MultiNodeModel,
        sub ∈ m.nodes ↔
          (sub ∈ m.subModelFields.map Prod.snd ∧ ∃ l, sub.node.df = some l ∧ l ≠ [])) ∧
    (∀ t ll row, m.node_table = .ok t → t.df = some ll → row ∈ ll →
        ∃ sub ∈ m.nodes, ∃ ldf, sub.node.df = some ldf ∧ row ∈ ldf) := by
  constructor
  · intro sub
    unfold Model.nodes Model.nodesNamed
    constructor
    · intro hmem
      obtain ⟨kv, hkv, rfl⟩ := List.mem_map.mp hmem
      obtain ⟨hfield, hpop⟩ := List.mem_filter.mp hkv
      exact ⟨List.mem_map.mpr ⟨kv, hfield, rfl⟩, (dfPopulated_iff _).mp hpop⟩
    · rintro ⟨hmem, hpop⟩
      obtain ⟨kv, hkv, rfl⟩ := List.mem_map.mp hmem
      exact List.mem_map.mpr
        ⟨kv, List.mem_filter.mpr ⟨hkv, (dfPopulated_iff _).mpr hpop⟩, rfl⟩
  · intro t ll row h1 h2 hrow
    unfold Model.node_table at h1
    cases hc : pd_concat (m.nodes.map (fun node => node.node.df)) with
    | error e => rw [hc] at h1; exact absurd h1 (by simp)
    | ok df =>
      rw [hc] at h1
      simp only [Except.ok.injEq] at h1
      rw [← h1] at h2
      simp only [NodeTable.sort, Option.map_some', Option.some.injEq] at h2
      rw [← h2] at hrow
      rw [List.mem_insertionSort] at hrow
      unfold pd_concat at hc
      cases hl : m.nodes.map (fun node => node.node.df) with
      | nil => rw [hl] at hc; exact absurd hc (by simp)
      | cons c cs =>
        rw [hl] at hc
        by_cases hall : (c :: cs).all Option.isSome
        · rw [if_pos hall] at hc
          simp only [Except.ok.injEq] at hc
          rw [← hc] at hrow
          obtain ⟨ldf, hldf, hrowin⟩ := (mem_concatAll row _).mp hrow
          obtain ⟨o, ho, hoeq⟩ := List.mem_filterMap.mp hldf
          rw [← hl] at ho
          obtain ⟨sub, hsub, hsubeq⟩ := List.mem_map.mp ho
          exact ⟨sub, hsub, ldf, by rw [hsubeq]; exact hoeq, hrowin⟩
        · rw [if_neg hall] at hc
          exact absurd hc (by simp)

/-- C4 witness: instantiated at `mEx` and the row with id 1. -/
theorem nodes_iff_populated_witness :
    (mEx.basin ∈ mEx.nodes ↔
        (mEx.basin ∈ mEx.subModelFields.map Prod.snd ∧
          ∃ l, mEx.basin.node.df = some l ∧ l ≠ [])) ∧
    (∃ sub ∈ mEx.nodes, ∃ ldf, sub.node.df = some ldf ∧
        ({ node_id := 1, node_type := "Basin", name := "" } : NodeRow) ∈ ldf) :=
  ⟨(nodes_iff_populated_and_provenance mEx).1 mEx.basin,
   (nodes_iff_populated_and_provenance mEx).2 tEx rowsEx
     { node_id := 1, node_type := "Basin", name := "" } rfl rfl (by decide)⟩

/-! ## C5: write rejects non-.toml paths with no side effects -/

/-- C5: for every filepath whose suffix is not `.toml`, `write` fails with
the `ValueError` and leaves the filesystem and the load context untouched
(the failure happens before any directory or file is created). -/
theorem write_rejects_non_toml (m : Model) (p : FSPath) (fs : FS) (ctx : Ctx)
    (h : pathSuffix p ≠ ".toml") :
    m.write p fs ctx = (.error "ValueError: Filepath is not a .toml file.", fs, ctx) := by
  unfold Model.write
  rw [if_pos h]

/-- C5 witness: `write("model/model.csv")` errors with no effects. -/
theorem write_rejects_non_toml_witness :
    pathSuffix "model/model.csv" ≠ ".toml" ∧
      mEmpty.write "model/model.csv" fs0 Ctx.empty =
        (.error "ValueError: Filepath is not a .toml file.", fs0, Ctx.empty) :=
  ⟨by decide, write_rejects_non_toml mEmpty "model/model.csv" fs0 Ctx.empty (by decide)⟩

/-! ## C9: unimplemented validation entry points -/

/-- C9: `validate_model`, its two sub-checks, and `plot_control_listen`
fail unconditionally with `NotImplementedError`, for every model. -/
theorem validators_unimplemented (m : Model) (ax : Unit) :
    m.validate_model_node_field_ids = .error "NotImplementedError" ∧
    m.validate_model_node_ids = .error "NotImplementedError" ∧
    m.validate_model = .error "NotImplementedError" ∧
    m.plot_control_listen ax = .error "NotImplementedError" :=
  ⟨rfl, rfl, rfl, rfl⟩

/-! ## C10: node_table is a pure query -/

/-- C10: the state-passing form of `node_table` returns the model
unchanged whenever it succeeds: no sub-model dataframe nor any other field
is modified. -/
theorem node_table_pure (m : Model) (t : NodeTable) (m' : Model)
    (h : m.node_tableSt = .ok (t, m')) :
    m' = m ∧ m'.subModelFields = m.subModelFields := by
  unfold Model.node_tableSt at h
  cases hc : m.node_table with
  | error e => rw [hc] at h; exact absurd h (by simp)
  | ok t0 =>
    rw [hc] at h
    simp only [Except.ok.injEq, Prod.mk.injEq] at h
    exact ⟨h.2.symm, by rw [h.2]⟩

/-- C10 witness: on `mEx` the query succeeds and the model is returned
unchanged. -/
theorem node_table_pure_witness :
    mEx.node_tableSt = .ok (tEx, mEx) ∧ mEx = mEx ∧
      mEx.subModelFields = mEx.subModelFields :=
  ⟨rfl, node_table_pure mEx tEx mEx rfl⟩

theorem readFS_cases (filepath : FSPath) (fs : FS) (ctx : Ctx) :
    (Model.readFS filepath fs ctx).2 = Ctx.empty ∨
      ∃ e, (Model.readFS filepath fs ctx).1 = .error e := by
  unfold Model.readFS
  dsimp only
  repeat' split
  all_goals first
    | exact Or.inl rfl
    | exact Or.inr ⟨_, rfl⟩

/-! ## C6: the load/write context across exit paths -/

/-- C6 counterexample: a `write` whose geometry-store save raises midway
propagates the error with the context still holding the database path —
the context is not cleared on this exit path, refuting the claim that it
is empty again on every exit, failure included. -/
theorem write_fault_context_cex :
    (mEmpty.write "model/model.toml" fsFault Ctx.empty).2.2 ≠ Ctx.empty ∧
      (mEmpty.write "model/model.toml" fsFault Ctx.empty).1 =
        .error "OSError: could not write to the database" := by
  constructor
  · intro h
    exact absurd (congrArg Ctx.database h) (by decide)
  · rfl

/-- C6 (amended): the context is set during `read`/`write` and cleared on
every successful return; but on a failure partway through the save (or
through construction during read) the call propagates the error with the
context still set — there is no scoped clearing on failure paths. -/
theorem write_read_context_lifecycle (m : Model) (p : FSPath) (fs rfs : FS)
    (ctx rctx : Ctx) (hsuf : pathSuffix p = ".toml") :
    (fs.ioFault = false → (m.write p fs ctx).2.2 = Ctx.empty) ∧
    (fs.ioFault = true →
      (m.write p fs ctx).2.2 ≠ Ctx.empty ∧
        (m.write p fs ctx).1 = .error "OSError: could not write to the database") ∧
    (∀ mdl, (Model.readFS p rfs rctx).1 = .ok mdl →
      (Model.readFS p rfs rctx).2 = Ctx.empty) := by
  refine ⟨fun hf => ?_, fun hf => ?_, fun mdl h => ?_⟩
  · rw [write_success_fs m p fs ctx hsuf hf]
  · rw [write_fault_result m p fs ctx hsuf hf]
    refine ⟨fun hc => ?_, rfl⟩
    exact absurd (congrArg Ctx.database hc) (by simp [Ctx.empty])
  · rcases readFS_cases p rfs rctx with hE | ⟨e, he⟩
    · exact hE
    · rw [h] at he
      exact absurd he (by simp)

/-- C6 witness: the lifecycle theorem instantiated at the faulting write. -/
theorem write_read_context_lifecycle_witness :
    (fsFault.ioFault = false →
      (mEmpty.write "model/model.toml" fsFault Ctx.empty).2.2 = Ctx.empty) ∧
    (fsFault.ioFault = true →
      (mEmpty.write "model/model.toml" fsFault Ctx.empty).2.2 ≠ Ctx.empty ∧
        (mEmpty.write "model/model.toml" fsFault Ctx.empty).1 =
          .error "OSError: could not write to the database") ∧
    (∀ mdl, (Model.readFS "model/model.toml" fs0 Ctx.empty).1 = .ok mdl →
      (Model.readFS "model/model.toml" fs0 Ctx.empty).2 = Ctx.empty) :=
  write_read_context_lifecycle mEmpty "model/model.toml" fsFault fs0
    Ctx.empty Ctx.empty (by decide)

/-! ## C7: contents of the emitted config file -/

/-- C7: every successful `write` emits a config whose entries are exactly
the explicitly-set, non-empty fields (sparse persistence) plus the
injected `ribasim_version` tag, and which always contains `input_dir` and
`results_dir` serialized as plain path strings. -/
theorem write_toml_contents (m : Model) (p : FSPath) (fs : FS) (ctx : Ctx)
    (hsuf : pathSuffix p = ".toml") (hfault : fs.ioFault = false)
    (hpost : m.model_post_init = m) :
    ∃ content, ((m.write p fs ctx).2.1).tomlFile = some (p, content) ∧
      lookupKV "input_dir" content = some (.str (serialize_path m.input_dir)) ∧
      lookupKV "results_dir" content = some (.str (serialize_path m.results_dir)) ∧
      lookupKV "ribasim_version" content = some (.str ribasim_version) ∧
      (∀ kv ∈ content, kv.1 = "ribasim_version" ∨
        (kv.1 ∈ m.model_fields_set ∧ truthy kv.2 = true)) := by
  obtain ⟨hin, hrd⟩ := mem_dirs_of_post m hpost
  refine ⟨m.write_toml_content, ?_, lookup_content_input_dir m hin,
    lookup_content_results_dir m hrd, lookup_content_version m, ?_⟩
  · rw [write_success_fs m p fs ctx hsuf hfault]
  · intro kv hkv
    unfold Model.write_toml_content at hkv
    rcases List.mem_append.mp hkv with hkv | hkv
    · obtain ⟨hmem, htr⟩ := List.mem_filter.mp hkv
      exact Or.inr ⟨mem_model_dump_contains m kv hmem, htr⟩
    · left
      have : kv = ("ribasim_version", Toml.str ribasim_version) :=
        List.mem_singleton.mp hkv
      rw [this]

/-- C7 witness: instantiated at `mEx`, whose `model_post_init` is a
fixpoint. -/
theorem write_toml_contents_witness :
    pathSuffix "model/model.toml" = ".toml" ∧ fs0.ioFault = false ∧
      mEx.model_post_init = mEx ∧
      (∃ content,
        ((mEx.write "model/model.toml" fs0 Ctx.empty).2.1).tomlFile =
          some ("model/model.toml", content) ∧
        lookupKV "input_dir" content = some (.str (serialize_path mEx.input_dir)) ∧
        lookupKV "results_dir" content = some (.str (serialize_path mEx.results_dir)) ∧
        lookupKV "ribasim_version" content = some (.str ribasim_version) ∧
        (∀ kv ∈ content, kv.1 = "ribasim_version" ∨
          (kv.1 ∈ mEx.model_fields_set ∧ truthy kv.2 = true))) :=
  ⟨by decide, rfl, rfl,
   write_toml_contents mEx "model/model.toml" fs0 Ctx.empty (by decide) rfl rfl⟩

/-! ## C8: write is idempotent in content -/

/-- C8: writing the same model twice to the same path produces identical
config-file content and an identical geometry store (the store is deleted
and rewritten, the config truncated and rewritten). -/
theorem write_idempotent (m : Model) (p : FSPath) (fs : FS) (ctx ctx' : Ctx)
    (hsuf : pathSuffix p = ".toml") (hfault : fs.ioFault = false) :
    ((m.write p ((m.write p fs ctx).2.1) ctx').2.1).tomlFile =
        ((m.write p fs ctx).2.1).tomlFile ∧
      ((m.write p ((m.write p fs ctx).2.1) ctx').2.1).store =
        ((m.write p fs ctx).2.1).store ∧
      (m.write p fs ctx).1 = .ok p := by
  rw [write_success_fs m p fs ctx hsuf hfault]
  rw [write_success_fs m p _ ctx' hsuf rfl]
  exact ⟨rfl, rfl, rfl⟩

/-- C8 witness: the double write of `mEx`. -/
theorem write_idempotent_witness :
    ((mEx.write "model/model.toml"
        ((mEx.write "model/model.toml" fs0 Ctx.empty).2.1) Ctx.empty).2.1).tomlFile =
      ((mEx.write "model/model.toml" fs0 Ctx.empty).2.1).tomlFile ∧
    ((mEx.write "model/model.toml"
        ((mEx.write "model/model.toml" fs0 Ctx.empty).2.1) Ctx.empty).2.1).store =
      ((mEx.write "model/model.toml" fs0 Ctx.empty).2.1).store ∧
    (mEx.write "model/model.toml" fs0 Ctx.empty).1 = .ok "model/model.toml" :=
  write_idempotent mEx "model/model.toml" fs0 Ctx.empty Ctx.empty (by decide) rfl

/-! ## C1: write-then-read round trip -/

theorem optTable_roundtrip (m : Model) (k : String) (g : Settings)
    (hl : lookupKV k m.write_toml_content =
      (if k ∈ m.model_fields_set ∧ g.isEmpty = false then some (.table g) else none))
    (hset : k ∈ m.model_fields_set ∨ g = []) :
    optTableField m.write_toml_content k = .ok g := by
  unfold optTableField
  rw [hl]
  by_cases hc : k ∈ m.model_fields_set ∧ g.isEmpty = false
  · rw [if_pos hc]
  · rw [if_neg hc]
    have hg : g = [] := by
      rcases hset with hm | hg
      · by_cases he : g.isEmpty = false
        · exact absurd ⟨hm, he⟩ hc
        · cases hb : g.isEmpty with
          | false => exact absurd hb he
          | true => exact List.isEmpty_iff.mp hb
      · exact hg
    rw [hg]

theorem dfPopulated_false_getD (df : Option (List NodeRow))
    (h : dfPopulated df = false) : df.getD [] = [] := by
  cases df with
  | none => rfl
  | some l =>
    rw [Option.getD_some]
    cases hb : l.isEmpty with
    | true => exact List.isEmpty_iff.mp hb
    | false =>
      simp only [dfPopulated] at h
      rw [hb] at h
      exact absurd h (by decide)

theorem lookupKV_none_of_not_key {α : Type} (k : String) (l : List (String × α))
    (h : ∀ kv ∈ l, kv.1 ≠ k) : lookupKV k l = none := by
  induction l with
  | nil => rfl
  | cons kv rest ih =>
    simp only [lookupKV, if_neg (h kv (List.mem_cons_self _ _))]
    exact ih (fun x hx => h x (List.mem_cons_of_mem _ hx))

theorem lookup_layers_getD (k : String) (sub : MultiNodeModel)
    (l : List (String × MultiNodeModel))
    (hnd : (l.map Prod.fst).Nodup)
    (hsome : lookupKV k l = some sub) :
    (lookupKV k ((l.filter (fun kv => dfPopulated kv.2.node.df)).map
        (fun kv => (kv.1, kv.2.node.df.getD [])))).getD []
      = sub.node.df.getD [] := by
  induction l with
  | nil => exact absurd hsome (by simp [lookupKV])
  | cons kv rest ih =>
    have hnd' : (rest.map Prod.fst).Nodup := by
      rw [List.map_cons] at hnd
      exact (List.nodup_cons.mp hnd).2
    by_cases hk : kv.1 = k
    · have hsub : kv.2 = sub := by
        simp only [lookupKV, if_pos hk, Option.some.injEq] at hsome
        exact hsome
      by_cases hp : dfPopulated kv.2.node.df = true
      · rw [@List.filter_cons_of_pos _ (fun kv => dfPopulated kv.2.node.df) kv rest hp, List.map_cons]
        simp only [lookupKV, if_pos hk, Option.getD_some]
        rw [hsub]
      · rw [@List.filter_cons_of_neg _ (fun kv => dfPopulated kv.2.node.df) kv rest hp]
        have hknot : ∀ kv' ∈ (rest.filter (fun kv => dfPopulated kv.2.node.df)).map
            (fun kv => (kv.1, kv.2.node.df.getD [])), kv'.1 ≠ k := by
          intro kv' hkv'
          obtain ⟨kv0, hkv0, rfl⟩ := List.mem_map.mp hkv'
          have hkv0r : kv0 ∈ rest := (List.mem_filter.mp hkv0).1
          have hnotin : kv.1 ∉ rest.map Prod.fst := by
            rw [List.map_cons] at hnd
            exact (List.nodup_cons.mp hnd).1
          intro hc
          exact hnotin (by
            rw [hk, ← hc]
            exact List.mem_map_of_mem Prod.fst hkv0r)
        rw [lookupKV_none_of_not_key _ _ hknot, Option.getD_none, ← hsub]
        refine (dfPopulated_false_getD _ ?_).symm
        cases hb : dfPopulated kv.2.node.df with
        | false => rfl
        | true => exact absurd hb hp
    · have hsome' : lookupKV k rest = some sub := by
        simp only [lookupKV, if_neg hk] at hsome
        exact hsome
      by_cases hp : dfPopulated kv.2.node.df = true
      · rw [@List.filter_cons_of_pos _ (fun kv => dfPopulated kv.2.node.df) kv rest hp, List.map_cons]
        simp only [lookupKV, if_neg hk]
        exact ih hnd' hsome'
      · rw [@List.filter_cons_of_neg _ (fun kv => dfPopulated kv.2.node.df) kv rest hp]
        exact ih hnd' hsome'

theorem lookup_ofModel_getD (m : Model) (k : String) (sub : MultiNodeModel)
    (hsome : lookupKV k m.subModelFields = some sub) :
    (lookupKV k (Store.ofModel m).nodeLayers).getD [] = sub.node.df.getD [] := by
  have hnd : (m.subModelFields.map Prod.fst).Nodup := by
    show (["basin", "linear_resistance", "manning_resistance",
           "tabulated_rating_curve", "fractional_flow", "pump",
           "level_boundary", "flow_boundary", "outlet", "terminal",
           "discrete_control", "pid_control", "user_demand",
           "level_demand"] : List String).Nodup
    decide
  show (lookupKV k ((m.subModelFields.filter (fun kv => dfPopulated kv.2.node.df)).map
      (fun kv => (kv.1, kv.2.node.df.getD [])))).getD [] = sub.node.df.getD []
  exact lookup_layers_getD k sub m.subModelFields hnd hsome

theorem hydrate_ofModel_df (m : Model) (k : String) (sub : MultiNodeModel)
    (hsome : lookupKV k m.subModelFields = some sub) :
    ((Store.ofModel m).hydrate k).node.df = some (sub.node.df.getD []) := by
  show some ((lookupKV k (Store.ofModel m).nodeLayers).getD []) =
    some (sub.node.df.getD [])
  exact congrArg some (lookup_ofModel_getD m k sub hsome)

theorem hydrate_ofModel_getD (m : Model) (k : String) (sub : MultiNodeModel)
    (hsome : lookupKV k m.subModelFields = some sub) :
    ((Store.ofModel m).hydrate k).node.df.getD [] = sub.node.df.getD [] := by
  rw [hydrate_ofModel_df m k sub hsome, Option.getD_some]

theorem chunks_congr (xs ys : List (String × MultiNodeModel))
    (h : List.Forall₂ (fun a b => a.2.node.df = some (b.2.node.df.getD [])) xs ys) :
    ((xs.filter (fun kv => dfPopulated kv.2.node.df)).map Prod.snd).map
        (fun node => node.node.df) =
      ((ys.filter (fun kv => dfPopulated kv.2.node.df)).map Prod.snd).map
        (fun node => node.node.df) := by
  induction h with
  | nil => rfl
  | cons hab htail ih =>
    rename_i a b xs' ys'
    have hpop : dfPopulated a.2.node.df = dfPopulated b.2.node.df := by
      rw [hab]
      cases hdf : b.2.node.df with
      | none => simp [dfPopulated]
      | some l => simp [dfPopulated]
    by_cases hp : dfPopulated b.2.node.df = true
    · rw [@List.filter_cons_of_pos _ (fun kv => dfPopulated kv.2.node.df) a xs' (hpop.trans hp),
          @List.filter_cons_of_pos _ (fun kv => dfPopulated kv.2.node.df) b ys' hp]
      simp only [List.map_cons]
      have hdfeq : a.2.node.df = b.2.node.df := by
        obtain ⟨l, hl, _⟩ := (dfPopulated_iff _).mp hp
        rw [hab, hl, Option.getD_some]
      rw [hdfeq, ih]
    · have hp' : ¬dfPopulated a.2.node.df = true := by
        rw [hpop]
        exact hp
      rw [@List.filter_cons_of_neg _ (fun kv => dfPopulated kv.2.node.df) a xs' hp',
          @List.filter_cons_of_neg _ (fun kv => dfPopulated kv.2.node.df) b ys' hp]
      exact ih

theorem node_table_congr (a b : Model)
    (hc : a.nodes.map (fun node => node.node.df) =
      b.nodes.map (fun node => node.node.df)) :
    a.node_table = b.node_table := by
  unfold Model.node_table
  rw [hc]

theorem fromConfig_write_toml (m : Model) (st : Store)
    (hst : "starttime" ∈ m.model_fields_set) (het : "endtime" ∈ m.model_fields_set)
    (hin : "input_dir" ∈ m.model_fields_set) (hrd : "results_dir" ∈ m.model_fields_set)
    (hinn : m.input_dir = normPath m.input_dir)
    (hrdn : m.results_dir = normPath m.results_dir)
    (hal : "allocation" ∈ m.model_fields_set ∨ m.allocation = [])
    (hlo : "logging" ∈ m.model_fields_set ∨ m.logging = [])
    (hso : "solver" ∈ m.model_fields_set ∨ m.solver = [])
    (hre : "results" ∈ m.model_fields_set ∨ m.results = []) :
    Model.fromConfig m.write_toml_content st =
      .ok { starttime := m.starttime
          , endtime := m.endtime
          , input_dir := m.input_dir
          , results_dir := m.results_dir
          , allocation := m.allocation
          , logging := m.logging
          , solver := m.solver
          , results := m.results
          , basin := st.hydrate "basin"
          , linear_resistance := st.hydrate "linear_resistance"
          , manning_resistance := st.hydrate "manning_resistance"
          , tabulated_rating_curve := st.hydrate "tabulated_rating_curve"
          , fractional_flow := st.hydrate "fractional_flow"
          , pump := st.hydrate "pump"
          , level_boundary := st.hydrate "level_boundary"
          , flow_boundary := st.hydrate "flow_boundary"
          , outlet := st.hydrate "outlet"
          , terminal := st.hydrate "terminal"
          , discrete_control := st.hydrate "discrete_control"
          , pid_control := st.hydrate "pid_control"
          , user_demand := st.hydrate "user_demand"
          , level_demand := st.hydrate "level_demand"
          , edge := { df := some st.edgeLayer }
          , model_fields_set := m.write_toml_content.map Prod.fst } := by
  have h1 : reqDatetime m.write_toml_content "starttime" = .ok m.starttime := by
    unfold reqDatetime
    rw [lookup_content_starttime m hst]
  have h2 : reqDatetime m.write_toml_content "endtime" = .ok m.endtime := by
    unfold reqDatetime
    rw [lookup_content_endtime m het]
  have h3 : optPathField m.write_toml_content "input_dir" "." = .ok m.input_dir := by
    unfold optPathField
    rw [lookup_content_input_dir m hin]
    unfold serialize_path
    dsimp only
    rw [normPath_idem, ← hinn]
  have h4 : optPathField m.write_toml_content "results_dir" "results" =
      .ok m.results_dir := by
    unfold optPathField
    rw [lookup_content_results_dir m hrd]
    unfold serialize_path
    dsimp only
    rw [normPath_idem, ← hrdn]
  have h5 := optTable_roundtrip m "allocation" m.allocation
    (lookup_content_allocation m) hal
  have h6 := optTable_roundtrip m "logging" m.logging
    (lookup_content_logging m) hlo
  have h7 := optTable_roundtrip m "solver" m.solver
    (lookup_content_solver m) hso
  have h8 := optTable_roundtrip m "results" m.results
    (lookup_content_results m) hre
  unfold Model.fromConfig
  simp only [h1, h2, h3, h4, h5, h6, h7, h8]

/-- C1: for every model (the pydantic-constructed well-formedness
hypotheses aside, the population state of the sub-models is arbitrary),
writing to a `.toml` path and reading that path back yields a model that
is round-trip equivalent: the same scalar fields and settings groups, the
same node rows for every node type, the same unified node table, and the
same edge rows. -/
theorem write_then_read_roundtrip
    (m : Model) (p : FSPath) (fs : FS) (ctx : Ctx)
    (hsuf : pathSuffix p = ".toml") (hfault : fs.ioFault = false)
    (hpost : m.model_post_init = m)
    (hst : "starttime" ∈ m.model_fields_set) (het : "endtime" ∈ m.model_fields_set)
    (hinn : m.input_dir = normPath m.input_dir)
    (hrdn : m.results_dir = normPath m.results_dir)
    (hal : "allocation" ∈ m.model_fields_set ∨ m.allocation = [])
    (hlo : "logging" ∈ m.model_fields_set ∨ m.logging = [])
    (hso : "solver" ∈ m.model_fields_set ∨ m.solver = [])
    (hre : "results" ∈ m.model_fields_set ∨ m.results = []) :
    ∃ m', (Model.readFS p (m.write p fs ctx).2.1 Ctx.empty).1 = .ok m' ∧
      m'.roundTripEq m := by
  obtain ⟨hin, hrd⟩ := mem_dirs_of_post m hpost
  have hser : serialize_path m.input_dir = m.input_dir := by
    unfold serialize_path
    exact hinn.symm
  rw [write_success_fs m p fs ctx hsuf hfault]
  unfold Model.readFS
  dsimp only
  rw [if_pos rfl]
  rw [lookup_content_input_dir m hin]
  dsimp only [getStr?, Option.getD_some]
  rw [hser]
  rw [if_pos rfl]
  rw [fromConfig_write_toml m (Store.ofModel m) hst het hin hrd hinn hrdn
    hal hlo hso hre]
  refine ⟨_, rfl, ?_⟩
  unfold Model.roundTripEq Model.model_post_init
  dsimp only
  refine ⟨rfl, rfl, rfl, rfl, rfl, rfl, rfl, rfl, ?_, ?_, ?_⟩
  · simp only [Model.subModelFields, List.map_cons, List.map_nil]
    rw [hydrate_ofModel_getD m "basin" m.basin (by rfl),
        hydrate_ofModel_getD m "linear_resistance" m.linear_resistance (by rfl),
        hydrate_ofModel_getD m "manning_resistance" m.manning_resistance (by rfl),
        hydrate_ofModel_getD m "tabulated_rating_curve" m.tabulated_rating_curve (by rfl),
        hydrate_ofModel_getD m "fractional_flow" m.fractional_flow (by rfl),
        hydrate_ofModel_getD m "pump" m.pump (by rfl),
        hydrate_ofModel_getD m "level_boundary" m.level_boundary (by rfl),
        hydrate_ofModel_getD m "flow_boundary" m.flow_boundary (by rfl),
        hydrate_ofModel_getD m "outlet" m.outlet (by rfl),
        hydrate_ofModel_getD m "terminal" m.terminal (by rfl),
        hydrate_ofModel_getD m "discrete_control" m.discrete_control (by rfl),
        hydrate_ofModel_getD m "pid_control" m.pid_control (by rfl),
        hydrate_ofModel_getD m "user_demand" m.user_demand (by rfl),
        hydrate_ofModel_getD m "level_demand" m.level_demand (by rfl)]
  · apply node_table_congr
    unfold Model.nodes Model.nodesNamed
    refine chunks_congr _ _ ?_
    unfold Model.subModelFields
    dsimp only
    refine List.Forall₂.cons (hydrate_ofModel_df m "basin" m.basin (by rfl)) ?_
    refine List.Forall₂.cons
      (hydrate_ofModel_df m "linear_resistance" m.linear_resistance (by rfl)) ?_
    refine List.Forall₂.cons
      (hydrate_ofModel_df m "manning_resistance" m.manning_resistance (by rfl)) ?_
    refine List.Forall₂.cons
      (hydrate_ofModel_df m "tabulated_rating_curve" m.tabulated_rating_curve (by rfl)) ?_
    refine List.Forall₂.cons
      (hydrate_ofModel_df m "fractional_flow" m.fractional_flow (by rfl)) ?_
    refine List.Forall₂.cons (hydrate_ofModel_df m "pump" m.pump (by rfl)) ?_
    refine List.Forall₂.cons
      (hydrate_ofModel_df m "level_boundary" m.level_boundary (by rfl)) ?_
    refine List.Forall₂.cons
      (hydrate_ofModel_df m "flow_boundary" m.flow_boundary (by rfl)) ?_
    refine List.Forall₂.cons (hydrate_ofModel_df m "outlet" m.outlet (by rfl)) ?_
    refine List.Forall₂.cons (hydrate_ofModel_df m "terminal" m.terminal (by rfl)) ?_
    refine List.Forall₂.cons
      (hydrate_ofModel_df m "discrete_control" m.discrete_control (by rfl)) ?_
    refine List.Forall₂.cons
      (hydrate_ofModel_df m "pid_control" m.pid_control (by rfl)) ?_
    refine List.Forall₂.cons
      (hydrate_ofModel_df m "user_demand" m.user_demand (by rfl)) ?_
    refine List.Forall₂.cons
      (hydrate_ofModel_df m "level_demand" m.level_demand (by rfl)) ?_
    exact List.Forall₂.nil
  · rfl

/-- C1 witness: the round trip at the spec scenario model, in which only
Basin and Pump are populated. -/
theorem write_then_read_roundtrip_witness :
    ∃ m', (Model.readFS "model/model.toml"
        (mScenario.write "model/model.toml" fs0 Ctx.empty).2.1 Ctx.empty).1 = .ok m' ∧
      m'.roundTripEq mScenario :=
  write_then_read_roundtrip mScenario "model/model.toml" fs0 Ctx.empty
    (by decide) rfl rfl (by decide) (by decide) rfl rfl
    (Or.inr rfl) (Or.inr rfl) (Or.inr rfl) (Or.inr rfl)

end Ribasim
